import Mathlib

set_option maxRecDepth 100000

/-!
Verification of the PETSc build-info capsule header
`src/simnibs/external/include/linux/petsc/petscmachineinfo.h`.

The header defines four static C string constants.  Each is embedded below
as a Lean `String`, written as the concatenation of the very same string
literals that appear (as adjacent C string literals) in the source file.
-/

/-- The constant `petscmachineinfo` from petscmachineinfo.h, lines 1-7. -/
def petscmachineinfo : String :=
  "\n" ++
  "-----------------------------------------\n" ++
  "Libraries compiled on 2024-07-18 12:51:25 on D2000 \n" ++
  "Machine characteristics: Linux-6.9.8-arm64-aarch64-with-glibc2.38\n" ++
  "Using PETSc directory: /home/seb/packages/petsc/3.20.3\n" ++
  "Using PETSc arch: \n" ++
  "-----------------------------------------\n"

/-- The constant `petsccompilerinfo` from petscmachineinfo.h, lines 8-11. -/
def petsccompilerinfo : String :=
  "\n" ++
  "Using C compiler: gcc  -fPIC -Wall -Wwrite-strings -Wno-unknown-pragmas -Wno-lto-type-mismatch -Wno-stringop-overflow -fstack-protector -fvisibility=hidden -g3 -O0  \n" ++
  "Using Fortran compiler: gfortran  -fPIC -Wall -ffree-line-length-none -ffree-line-length-0 -Wno-lto-type-mismatch -Wno-unused-dummy-argument -g -O0    \n" ++
  "-----------------------------------------\n"

/-- The constant `petsccompilerflagsinfo` from petscmachineinfo.h, lines 12-14. -/
def petsccompilerflagsinfo : String :=
  "\n" ++
  "Using include paths: -I/home/seb/packages/petsc/3.20.3/include\n" ++
  "-----------------------------------------\n"

/-- The constant `petsclinkerinfo` from petscmachineinfo.h, lines 15-19. -/
def petsclinkerinfo : String :=
  "\n" ++
  "Using C linker: gcc\n" ++
  "Using Fortran linker: gfortran\n" ++
  "Using libraries: -Wl,-rpath,/home/seb/packages/petsc/3.20.3/lib -L/home/seb/packages/petsc/3.20.3/lib -lpetsc -llapack -lblas -lm -lX11 -lgfortran -lstdc++\n" ++
  "-----------------------------------------\n"

/-- Modelled from the spec: the immutable BuildInfoCapsule record (spec section 3)
holding the four build-provenance text fields.  The record type itself is not in
the source slice; its field values are the four constants of the header. -/
structure BuildInfoCapsule where
  generalInfo : String
  compilerInfo : String
  compilerFlagsInfo : String
  linkerInfo : String

/-- The one capsule of this build, populated from the four header constants. -/
def theCapsule : BuildInfoCapsule :=
  ⟨petscmachineinfo, petsccompilerinfo, petsccompilerflagsinfo, petsclinkerinfo⟩

/-- Modelled from the spec: `getGeneralInfo` (spec section 4.1), a pure
projection returning the general-info block verbatim; the accessor itself is
not in the source slice. -/
def getGeneralInfo (c : BuildInfoCapsule) : String := c.generalInfo

/-- Modelled from the spec: `getCompilerInfo` (spec section 4.1). -/
def getCompilerInfo (c : BuildInfoCapsule) : String := c.compilerInfo

/-- Modelled from the spec: `getCompilerFlagsInfo` (spec section 4.1). -/
def getCompilerFlagsInfo (c : BuildInfoCapsule) : String := c.compilerFlagsInfo

/-- Modelled from the spec: `getLinkerInfo` (spec section 4.1). -/
def getLinkerInfo (c : BuildInfoCapsule) : String := c.linkerInfo

/-- Modelled from the spec: a sequence of repeated calls, within one process,
to `getGeneralInfo`; since the capsule is immutable static data every call
projects the same field. -/
def getGeneralInfoCall (_call : Nat) : String := getGeneralInfo theCapsule

/-- Modelled from the spec: repeated calls to `getCompilerInfo`. -/
def getCompilerInfoCall (_call : Nat) : String := getCompilerInfo theCapsule

/-- Modelled from the spec: repeated calls to `getCompilerFlagsInfo`. -/
def getCompilerFlagsInfoCall (_call : Nat) : String := getCompilerFlagsInfo theCapsule

/-- Modelled from the spec: repeated calls to `getLinkerInfo`. -/
def getLinkerInfoCall (_call : Nat) : String := getLinkerInfo theCapsule

/-- The 41-hyphen separator line delimiting each block. -/
def separator : String := "-----------------------------------------"

/-- Split a character list at newline characters. -/
def splitNLAux : List Char → List Char → List (List Char)
  | [], acc => [acc.reverse]
  | c :: cs, acc =>
    if c = '\n' then acc.reverse :: splitNLAux cs [] else splitNLAux cs (c :: acc)

/-- The lines of a text, POSIX style: a final newline terminates the last
line rather than opening an empty one. -/
def linesOf (s : String) : List String :=
  let p := (splitNLAux s.data []).map (fun l => String.mk l)
  if p.getLast? = some "" then p.dropLast else p

/-- `leadsWith p s` holds when the character list `p` is an initial segment
of the character list `s`. -/
def leadsWith : List Char → List Char → Bool
  | [], _ => true
  | _ :: _, [] => false
  | a :: as, b :: bs => a = b && leadsWith as bs

/-- `strLeadsWith s p`: the string `s` begins with the string `p`. -/
def strLeadsWith (s p : String) : Bool := leadsWith p.data s.data

/-- The number of space characters at the end of a string. -/
def trailingSpaces (s : String) : Nat :=
  (s.data.reverse.takeWhile (fun c => c = ' ')).length

/-- The shape claim C1 asserts of a single block: its first and its last
line are each the 41-hyphen separator. -/
def beginsAndEndsWithSeparator (s : String) : Prop :=
  (linesOf s).head? = some separator ∧ (linesOf s).getLast? = some separator

/-- The exact line shape claim C2 asserts of the generalInfo block: a blank
line, the four content lines, and the separator — six lines, with no
separator after the blank line. -/
def generalInfoClaimShape (s : String) : Prop :=
  ∃ l1 l2 l3 l4, linesOf s = ["", l1, l2, l3, l4, separator] ∧
    strLeadsWith l1 "Libraries compiled on " = true ∧
    strLeadsWith l2 "Machine characteristics: " = true ∧
    strLeadsWith l3 "Using PETSc directory: " = true ∧
    strLeadsWith l4 "Using PETSc arch:" = true

theorem separator_is_41_hyphens :
    separator.length = 41 ∧ separator.data.all (fun c => c = '-') = true := by
  decide

/-- Claim C1, counterexample: the compilerInfo block does not begin with a
separator line — its first line is blank — so the claim that every block
begins with a line of 41 hyphens is false. -/
theorem C1_counterexample :
    ¬ beginsAndEndsWithSeparator (getCompilerInfo theCapsule) := by
  intro h
  exact absurd h.1 (by decide)

/-- Claim C1, amended: each of the four blocks begins with a blank line and ends
with a line of exactly 41 hyphen characters; only the generalInfo block also
carries an opening separator, as its second line. -/
theorem C1_amended :
    ((linesOf petscmachineinfo).head? = some "" ∧
      (linesOf petscmachineinfo).getLast? = some separator) ∧
    ((linesOf petsccompilerinfo).head? = some "" ∧
      (linesOf petsccompilerinfo).getLast? = some separator) ∧
    ((linesOf petsccompilerflagsinfo).head? = some "" ∧
      (linesOf petsccompilerflagsinfo).getLast? = some separator) ∧
    ((linesOf petsclinkerinfo).head? = some "" ∧
      (linesOf petsclinkerinfo).getLast? = some separator) ∧
    (linesOf petscmachineinfo).get? 1 = some separator ∧
    separator.length = 41 ∧ separator.data.all (fun c => c = '-') = true := by
  decide

/-- Claim C2, counterexample: the generalInfo block does not consist of the
six claimed lines and no others — it has seven lines, because a separator
line follows the leading blank line. -/
theorem C2_counterexample : ¬ generalInfoClaimShape (getGeneralInfo theCapsule) := by
  rintro ⟨l1, l2, l3, l4, h, -, -, -, -⟩
  have hlen : (linesOf (getGeneralInfo theCapsule)).length = 7 := by decide
  rw [h] at hlen
  simp at hlen

/-- Claim C2, amended: the generalInfo block consists of exactly these lines
in this order and no others: a blank line, the separator line, the
"Libraries compiled on <date> <time> on <host>" line, the
"Machine characteristics: <os-arch-triple>" line, the
"Using PETSc directory: <path>" line, the "Using PETSc arch: <arch-or-empty>"
line, and the separator line. -/
theorem C2_amended :
    linesOf (getGeneralInfo theCapsule) =
      ["", separator,
       "Libraries compiled on 2024-07-18 12:51:25 on D2000 ",
       "Machine characteristics: Linux-6.9.8-arm64-aarch64-with-glibc2.38",
       "Using PETSc directory: /home/seb/packages/petsc/3.20.3",
       "Using PETSc arch: ",
       separator] := by
  decide

/-- Claim C3: each of the four accessors returns a non-empty string whose
final line is the 41-hyphen separator line. -/
theorem C3_accessors_nonempty_end_with_separator :
    (getGeneralInfo theCapsule ≠ "" ∧
      (linesOf (getGeneralInfo theCapsule)).getLast? = some separator) ∧
    (getCompilerInfo theCapsule ≠ "" ∧
      (linesOf (getCompilerInfo theCapsule)).getLast? = some separator) ∧
    (getCompilerFlagsInfo theCapsule ≠ "" ∧
      (linesOf (getCompilerFlagsInfo theCapsule)).getLast? = some separator) ∧
    (getLinkerInfo theCapsule ≠ "" ∧
      (linesOf (getLinkerInfo theCapsule)).getLast? = some separator) ∧
    separator.length = 41 ∧ separator.data.all (fun c => c = '-') = true := by
  decide

/-- Claim C4: the compilerInfo block consists of exactly a blank line, a
"Using C compiler: <cc> <flags>" line, a "Using Fortran compiler: <fc> <flags>"
line, and the separator line, in this order. -/
theorem C4_compilerInfo_shape :
    ∃ cLine fLine,
      linesOf (getCompilerInfo theCapsule) = ["", cLine, fLine, separator] ∧
      strLeadsWith cLine "Using C compiler: " = true ∧
      strLeadsWith fLine "Using Fortran compiler: " = true :=
  ⟨"Using C compiler: gcc  -fPIC -Wall -Wwrite-strings -Wno-unknown-pragmas -Wno-lto-type-mismatch -Wno-stringop-overflow -fstack-protector -fvisibility=hidden -g3 -O0  ",
   "Using Fortran compiler: gfortran  -fPIC -Wall -ffree-line-length-none -ffree-line-length-0 -Wno-lto-type-mismatch -Wno-unused-dummy-argument -g -O0    ",
   by decide, by decide, by decide⟩

/-- Claim C5: the linkerInfo block consists of exactly a blank line, a
"Using C linker: <linker>" line, a "Using Fortran linker: <linker>" line, a
"Using libraries: <flags>" line, and the separator line, in this order. -/
theorem C5_linkerInfo_shape :
    ∃ cLine fLine libLine,
      linesOf (getLinkerInfo theCapsule) = ["", cLine, fLine, libLine, separator] ∧
      strLeadsWith cLine "Using C linker: " = true ∧
      strLeadsWith fLine "Using Fortran linker: " = true ∧
      strLeadsWith libLine "Using libraries: " = true :=
  ⟨"Using C linker: gcc",
   "Using Fortran linker: gfortran",
   "Using libraries: -Wl,-rpath,/home/seb/packages/petsc/3.20.3/lib -L/home/seb/packages/petsc/3.20.3/lib -lpetsc -llapack -lblas -lm -lX11 -lgfortran -lstdc++",
   by decide, by decide, by decide, by decide⟩

/-- Claim C6: the text returned by the compilerInfo accessor contains the
exact substring "Using C compiler: gcc  -fPIC -Wall", with two consecutive
spaces between "gcc" and "-fPIC". -/
theorem C6_double_space_substring :
    ∃ pre post,
      getCompilerInfo theCapsule = pre ++ "Using C compiler: gcc  -fPIC -Wall" ++ post :=
  ⟨"\n",
   " -Wwrite-strings -Wno-unknown-pragmas -Wno-lto-type-mismatch -Wno-stringop-overflow -fstack-protector -fvisibility=hidden -g3 -O0  \n" ++
     "Using Fortran compiler: gfortran  -fPIC -Wall -ffree-line-length-none -ffree-line-length-0 -Wno-lto-type-mismatch -Wno-unused-dummy-argument -g -O0    \n" ++
     "-----------------------------------------\n",
   by decide⟩

/-- Claim C7: with an empty arch label, the generalInfo block still contains
the "Using PETSc arch:" line; every line of the block carrying that prefix is
exactly "Using PETSc arch:" followed by a single space, with nothing after it. -/
theorem C7_empty_arch_line :
    ("Using PETSc arch:" ++ " ") ∈ linesOf (getGeneralInfo theCapsule) ∧
    ((linesOf (getGeneralInfo theCapsule)).all
      (fun l => !(strLeadsWith l "Using PETSc arch:") || (l == "Using PETSc arch:" ++ " "))) = true ∧
    trailingSpaces ("Using PETSc arch:" ++ " ") = 1 := by
  decide

/-- Claim C8: every call to an accessor returns text identical to the text
returned by every other call to the same accessor: the capsule constants are
immutable static data and the accessors are pure projections of them. -/
theorem C8_accessors_idempotent (i j : Nat) :
    getGeneralInfoCall i = getGeneralInfoCall j ∧
    getCompilerInfoCall i = getCompilerInfoCall j ∧
    getCompilerFlagsInfoCall i = getCompilerFlagsInfoCall j ∧
    getLinkerInfoCall i = getLinkerInfoCall j :=
  ⟨rfl, rfl, rfl, rfl⟩

/-- Witness for claim C8 at the concrete call indices 0 and 1. -/
theorem C8_accessors_idempotent_witness :
    getGeneralInfoCall 0 = getGeneralInfoCall 1 ∧
    getCompilerInfoCall 0 = getCompilerInfoCall 1 ∧
    getCompilerFlagsInfoCall 0 = getCompilerFlagsInfoCall 1 ∧
    getLinkerInfoCall 0 = getLinkerInfoCall 1 :=
  C8_accessors_idempotent 0 1

/-- Claim C9: the generalInfo block contains exactly two separator lines —
one immediately after its leading blank line and one at its end — while each
of the other three blocks contains exactly one separator line, at its end. -/
theorem C9_separator_counts :
    (linesOf petscmachineinfo).count separator = 2 ∧
    (linesOf petscmachineinfo).head? = some "" ∧
    (linesOf petscmachineinfo).get? 1 = some separator ∧
    (linesOf petscmachineinfo).getLast? = some separator ∧
    (linesOf petsccompilerinfo).count separator = 1 ∧
    (linesOf petsccompilerinfo).getLast? = some separator ∧
    (linesOf petsccompilerflagsinfo).count separator = 1 ∧
    (linesOf petsccompilerflagsinfo).getLast? = some separator ∧
    (linesOf petsclinkerinfo).count separator = 1 ∧
    (linesOf petsclinkerinfo).getLast? = some separator := by
  decide

/-- Claim C10: the "Libraries compiled on ... on D2000" line carries exactly
one trailing space, the "Using C compiler: ..." line exactly two, and the
"Using Fortran compiler: ..." line exactly four; the whitespace is part of
the verbatim text of the blocks. -/
theorem C10_trailing_whitespace :
    (linesOf petscmachineinfo).get? 2 =
      some "Libraries compiled on 2024-07-18 12:51:25 on D2000 " ∧
    trailingSpaces "Libraries compiled on 2024-07-18 12:51:25 on D2000 " = 1 ∧
    (linesOf petsccompilerinfo).get? 1 =
      some "Using C compiler: gcc  -fPIC -Wall -Wwrite-strings -Wno-unknown-pragmas -Wno-lto-type-mismatch -Wno-stringop-overflow -fstack-protector -fvisibility=hidden -g3 -O0  " ∧
    trailingSpaces "Using C compiler: gcc  -fPIC -Wall -Wwrite-strings -Wno-unknown-pragmas -Wno-lto-type-mismatch -Wno-stringop-overflow -fstack-protector -fvisibility=hidden -g3 -O0  " = 2 ∧
    (linesOf petsccompilerinfo).get? 2 =
      some "Using Fortran compiler: gfortran  -fPIC -Wall -ffree-line-length-none -ffree-line-length-0 -Wno-lto-type-mismatch -Wno-unused-dummy-argument -g -O0    " ∧
    trailingSpaces "Using Fortran compiler: gfortran  -fPIC -Wall -ffree-line-length-none -ffree-line-length-0 -Wno-lto-type-mismatch -Wno-unused-dummy-argument -g -O0    " = 4 := by
  decide
